import Mathlib

/-!
WhatsAppClient (src/src/index.js): connection lifecycle, reconnect policy, dispatch

A shallow embedding of the class `WhatsAppClient`.  Each method is a function from the
object's fields (`this`) and the method's arguments to the new fields together with the
observable effects the method performs, in program order (console output, timers handed to
`setTimeout`, calls to the transport).  The counters are JavaScript numbers; every value that
occurs below stays far inside the range where they are exact, so they are natural numbers here.
-/

set_option autoImplicit false

namespace WhatsApp

/-! ## Values thrown and effects performed -/

/-- Values thrown by the methods of the client. -/
inductive JsError where
  /-- The value of `new Error(message)`. -/
  | error (message : String)
  /-- A property read on `null` or `undefined`. -/
  | typeError
  /-- A failure raised inside a dependency (transport or credential store). -/
  | external (cause : String)
  deriving DecidableEq, Repr

/-- Observable effects of a method, listed in the order the method performs them. -/
inductive Effect where
  /-- Effect of `console.log(line)`. -/
  | log (line : String)
  /-- Effect of `console.log(label, { from, message })`; `sender` is the `from` field. -/
  | logMessage (label : String) (sender : Option String) (message : String)
  /-- Effect of `console.error(label, error)`. -/
  | logError (label : String) (error : JsError)
  /-- Effect of `setTimeout(() => this.initialize(), delay)`. -/
  | setTimeout (delay : Nat)
  /-- Effect of `this.sock.sendMessage(jid, { text })` on the socket with handle `sock`. -/
  | transportSend (sock : Nat) (jid : String) (text : String)
  deriving DecidableEq, Repr

/-- Delays of the timers scheduled by a run of effects, in scheduling order. -/
def scheduled : List Effect → List Nat
  | [] => []
  | Effect.setTimeout d :: es => d :: scheduled es
  | _ :: es => scheduled es

/-- Calls made to the transport by a run of effects. -/
def transportCalls : List Effect → List (Nat × String × String)
  | [] => []
  | Effect.transportSend s j t :: es => (s, j, t) :: transportCalls es
  | _ :: es => transportCalls es

/-! ## The object's fields -/

/-- Fields of a `WhatsAppClient`; `sock` is the handle of the socket stored by the last
successful `initialize()`, or `none` for `null`. -/
structure WhatsAppClient where
  sock : Option Nat
  isConnected : Bool
  reconnectAttempts : Nat
  maxReconnectAttempts : Nat
  deriving DecidableEq, Repr

/-- The `constructor()`. -/
def WhatsAppClient.new : WhatsAppClient :=
  { sock := none, isConnected := false, reconnectAttempts := 0, maxReconnectAttempts := 5 }

/-! ## Connection updates -/

/-- The `output` object of a disconnect error. -/
structure BoomOutput where
  statusCode : Option Int
  deriving DecidableEq, Repr

/-- The `error` object of `lastDisconnect`. -/
structure DisconnectError where
  output : Option BoomOutput
  deriving DecidableEq, Repr

/-- The `lastDisconnect` object of a connection update. -/
structure LastDisconnect where
  error : Option DisconnectError
  deriving DecidableEq, Repr

/-- Payload of the `connection.update` event; an absent field is `none`. -/
structure ConnectionUpdate where
  connection : Option String
  lastDisconnect : Option LastDisconnect
  deriving DecidableEq, Repr

/-- The value of `lastDisconnect?.error?.output?.statusCode`. -/
def ConnectionUpdate.statusCode (update : ConnectionUpdate) : Option Int :=
  ((update.lastDisconnect.bind (·.error)).bind (·.output)).bind (·.statusCode)

/-- The method `handleConnectionUpdate(update)`.  `loggedOut` is the value of the imported
constant `DisconnectReason.loggedOut`. -/
def WhatsAppClient.handleConnectionUpdate (loggedOut : Int) (self : WhatsAppClient)
    (update : ConnectionUpdate) : WhatsAppClient × List Effect :=
  let connection := update.connection
  if connection = some "open" then
    ({ self with isConnected := true, reconnectAttempts := 0 },
      [Effect.log "Conexão estabelecida com sucesso!"])
  else if connection = some "close" then
    let self1 := { self with isConnected := false }
    let statusCode := update.statusCode
    let shouldReconnect :=
      decide (statusCode ≠ some loggedOut) &&
        decide (self1.reconnectAttempts < self1.maxReconnectAttempts)
    if shouldReconnect then
      let self2 := { self1 with reconnectAttempts := self1.reconnectAttempts + 1 }
      (self2,
        [Effect.log ("Tentativa de reconexão " ++ toString self2.reconnectAttempts ++ "/" ++
            toString self2.maxReconnectAttempts),
          Effect.setTimeout (5000 * self2.reconnectAttempts)])
    else
      (self1,
        Effect.log "Conexão encerrada permanentemente." ::
          (if statusCode = some loggedOut then
            [Effect.log "Dispositivo desconectado. Por favor, escaneie o QR Code novamente."]
          else []))
  else
    (self, [])

/-- A connection update with `connection = 'open'` and whatever `lastDisconnect`. -/
def openUpdate (lastDisconnect : Option LastDisconnect) : ConnectionUpdate :=
  { connection := some "open", lastDisconnect := lastDisconnect }

/-- A connection update with `connection = 'close'` and whatever `lastDisconnect`. -/
def closeUpdate (lastDisconnect : Option LastDisconnect) : ConnectionUpdate :=
  { connection := some "close", lastDisconnect := lastDisconnect }

/-- A `lastDisconnect` whose error carries the status code `code`. -/
def disconnectWith (code : Int) : Option LastDisconnect :=
  some { error := some { output := some { statusCode := some code } } }

/-- Handles a run of connection updates one after the other, collecting the effects. -/
def handleAll (loggedOut : Int) :
    WhatsAppClient → List ConnectionUpdate → WhatsAppClient × List Effect
  | self, [] => (self, [])
  | self, u :: us =>
    let r := self.handleConnectionUpdate loggedOut u
    let rest := handleAll loggedOut r.1 us
    (rest.1, r.2 ++ rest.2)

/-! ## Recipient formatting -/

/-- The value of `number.replace(/\D/g, '')`: the characters `0` to `9` of the input, kept in
order. -/
def stripNonDigits (number : String) : String :=
  String.mk (number.data.filter Char.isDigit)

/-- The value of `s.endsWith(t)`. -/
def endsWith (s t : String) : Bool :=
  decide (t.data <:+ s.data)

/-- The method `formatPhoneNumber(number)`; it reads no field of the object. -/
def WhatsAppClient.formatPhoneNumber (number : String) : String :=
  let cleaned := stripNonDigits number
  if endsWith cleaned "@s.whatsapp.net" then cleaned else cleaned ++ "@s.whatsapp.net"

/-! ## Method results -/

/-- Result of a method that may throw: the fields afterwards, the value returned or thrown,
and the effects performed. -/
structure Outcome (α : Type) where
  client : WhatsAppClient
  result : Except JsError α
  effects : List Effect

/-! ## Inbound messages -/

/-- The `key` object of a message. -/
structure MessageKey where
  fromMe : Option Bool
  remoteJid : Option String
  deriving DecidableEq, Repr

/-- The `extendedTextMessage` object of a message body. -/
structure ExtendedTextMessage where
  text : Option String
  deriving DecidableEq, Repr

/-- The `message` object (the body) of a message. -/
structure MessageContent where
  conversation : Option String
  extendedTextMessage : Option ExtendedTextMessage
  deriving DecidableEq, Repr

/-- One entry of `messages`. -/
structure WAMessage where
  key : Option MessageKey
  message : Option MessageContent
  deriving DecidableEq, Repr

/-- Payload of the `messages.upsert` event. -/
structure MessagesUpsert where
  messages : List WAMessage
  deriving DecidableEq, Repr

/-- The value of `a || b` for an optional string `a`: `a` when it is a non-empty string. -/
def orString (a : Option String) (b : String) : String :=
  match a with
  | some s => if s = "" then b else s
  | none => b

/-- The method `handleNewMessage(messageUpdate)`. -/
def WhatsAppClient.handleNewMessage (self : WhatsAppClient) (messageUpdate : MessagesUpsert) :
    Outcome Unit :=
  let message := messageUpdate.messages.head?
  let fromMe := (message.bind (·.key)).bind (·.fromMe)
  if fromMe = some true then
    { client := self, result := Except.ok (), effects := [] }
  else
    match message with
    | none => { client := self, result := Except.error JsError.typeError, effects := [] }
    | some m =>
      match m.key with
      | none => { client := self, result := Except.error JsError.typeError, effects := [] }
      | some key =>
        let text :=
          orString (m.message.bind (·.conversation))
            (orString ((m.message.bind (·.extendedTextMessage)).bind (·.text))
              "Mensagem não textual")
        { client := self, result := Except.ok (),
          effects := [Effect.logMessage "Nova mensagem recebida:" key.remoteJid text] }

/-! ## Outbound messages -/

/-- The method `sendMessage(to, content)`.  `reply` is what the awaited call
`this.sock.sendMessage(...)` settles to: a result, or the value it rejects with. -/
def WhatsAppClient.sendMessage (self : WhatsAppClient) (recipient content : String)
    (reply : Except JsError String) : Outcome String :=
  if !self.isConnected then
    { client := self,
      result := Except.error (JsError.error "Cliente não está conectado ao WhatsApp"),
      effects := [] }
  else
    let formattedNumber := WhatsAppClient.formatPhoneNumber recipient
    match self.sock with
    | none =>
      { client := self, result := Except.error JsError.typeError,
        effects := [Effect.logError ("Erro ao enviar mensagem para " ++ recipient ++ ":")
          JsError.typeError] }
    | some sock =>
      match reply with
      | Except.ok result =>
        { client := self, result := Except.ok result,
          effects := [Effect.transportSend sock formattedNumber content,
            Effect.log ("Mensagem enviada com sucesso para " ++ recipient)] }
      | Except.error e =>
        { client := self, result := Except.error e,
          effects := [Effect.transportSend sock formattedNumber content,
            Effect.logError ("Erro ao enviar mensagem para " ++ recipient ++ ":") e] }

/-! ## Opening a session -/

/-- The method `initialize()`.  `outcome` tells whether loading the credentials and
`makeWASocket` succeed; `handle` names the socket that
`makeWASocket` then returns.
Nothing is done to the socket stored before. -/
def WhatsAppClient.init (self : WhatsAppClient) (handle : Nat) (outcome : Except JsError Unit) :
    Outcome Nat :=
  match outcome with
  | Except.ok _ =>
    { client := { self with sock := some handle }, result := Except.ok handle, effects := [] }
  | Except.error e =>
    { client := self, result := Except.error e,
      effects := [Effect.logError "Erro na inicialização:" e] }

/-! ## The client in its environment -/

/-- The client together with what surrounds it: the timers handed to `setTimeout` that have not
fired yet, the sockets that were created and have not reported `close` (the live sessions), the
number of sockets created so far, and every effect performed so far. -/
structure World where
  client : WhatsAppClient
  timers : List Nat
  live : List Nat
  created : Nat
  effects : List Effect

/-- A client just constructed: no socket, no timer. -/
def World.initial : World :=
  { client := WhatsAppClient.new, timers := [], live := [], created := 0, effects := [] }

/-- What can happen to the client. -/
inductive Event where
  /-- The application calls `initialize()`. -/
  | callInit (outcome : Except JsError Unit)
  /-- The pending timer number `i` fires and its callback calls `initialize()`. -/
  | timerFires (i : Nat) (outcome : Except JsError Unit)
  /-- The socket `sock` emits `connection.update`. -/
  | connectionUpdate (sock : Nat) (update : ConnectionUpdate)
  /-- The socket `sock` emits `messages.upsert`. -/
  | messagesUpsert (sock : Nat) (batch : MessagesUpsert)
  /-- The application calls `sendMessage(to, content)`. -/
  | callSendMessage (recipient content : String) (reply : Except JsError String)

/-- A call of `initialize()`: on success the new socket is live and has the listeners of
`setupEventListeners` registered on it. -/
def World.runInit (w : World) (outcome : Except JsError Unit) : World :=
  let r := w.client.init w.created outcome
  match r.result with
  | Except.ok sock =>
    { w with client := r.client, live := w.live ++ [sock], created := w.created + 1,
             effects := w.effects ++ r.effects }
  | Except.error _ => { w with client := r.client, effects := w.effects ++ r.effects }

/-- One event.  A socket that reports `close` is no longer live; the listeners are bound to the
client, so the update is handled whichever socket it comes from. -/
def World.step (loggedOut : Int) (w : World) : Event → World
  | Event.callInit outcome => w.runInit outcome
  | Event.timerFires i outcome =>
    if i < w.timers.length then
      ({ w with timers := w.timers.eraseIdx i }).runInit outcome
    else w
  | Event.connectionUpdate sock update =>
    let r := w.client.handleConnectionUpdate loggedOut update
    { w with client := r.1, timers := w.timers ++ scheduled r.2,
             live := if update.connection = some "close" then w.live.erase sock else w.live,
             effects := w.effects ++ r.2 }
  | Event.messagesUpsert _ batch =>
    let r := w.client.handleNewMessage batch
    { w with client := r.client, effects := w.effects ++ r.effects }
  | Event.callSendMessage recipient content reply =>
    let r := w.client.sendMessage recipient content reply
    { w with client := r.client, effects := w.effects ++ r.effects }

/-- A run of events. -/
def World.run (loggedOut : Int) (w : World) (events : List Event) : World :=
  events.foldl (World.step loggedOut) w

/-- An event the environment produces when every socket reports `close` once and is silent
afterwards, and `initialize()` is not called again by the application: a timer that fires is
pending, and a socket that emits is live. -/
def Event.orderly (w : World) : Event → Bool
  | Event.callInit _ => false
  | Event.timerFires i _ => decide (i < w.timers.length)
  | Event.connectionUpdate sock _ => decide (sock ∈ w.live)
  | Event.messagesUpsert sock _ => decide (sock ∈ w.live)
  | Event.callSendMessage _ _ _ => true

/-- Every event of the run is orderly in the state it occurs in. -/
def World.orderlyRun (loggedOut : Int) : World → List Event → Bool
  | _, [] => true
  | w, e :: es => e.orderly w && World.orderlyRun loggedOut (w.step loggedOut e) es

/-- The bound on the attempts, with the constant of the constructor. -/
def Bounded (c : WhatsAppClient) : Prop :=
  c.reconnectAttempts ≤ c.maxReconnectAttempts ∧ c.maxReconnectAttempts = 5

/-! ## Auxiliary facts -/

theorem scheduled_append (a b : List Effect) :
    scheduled (a ++ b) = scheduled a ++ scheduled b := by
  induction a with
  | nil => rfl
  | cons e es ih => cases e <;> simp [scheduled, ih]

theorem handle_close_lt (loggedOut : Int) (self : WhatsAppClient) (update : ConnectionUpdate)
    (hclose : update.connection = some "close") (hcode : update.statusCode ≠ some loggedOut)
    (hlt : self.reconnectAttempts < self.maxReconnectAttempts) :
    self.handleConnectionUpdate loggedOut update =
      ({ self with isConnected := false, reconnectAttempts := self.reconnectAttempts + 1 },
        [Effect.log ("Tentativa de reconexão " ++ toString (self.reconnectAttempts + 1) ++ "/" ++
            toString self.maxReconnectAttempts),
          Effect.setTimeout (5000 * (self.reconnectAttempts + 1))]) := by
  simp [WhatsAppClient.handleConnectionUpdate, hclose, hcode, hlt]

theorem handle_close_ge (loggedOut : Int) (self : WhatsAppClient) (update : ConnectionUpdate)
    (hclose : update.connection = some "close") (hcode : update.statusCode ≠ some loggedOut)
    (hge : self.maxReconnectAttempts ≤ self.reconnectAttempts) :
    self.handleConnectionUpdate loggedOut update =
      ({ self with isConnected := false },
        [Effect.log "Conexão encerrada permanentemente."]) := by
  simp [WhatsAppClient.handleConnectionUpdate, hclose, hcode, Nat.not_lt.mpr hge]

theorem handle_close_loggedOut (loggedOut : Int) (self : WhatsAppClient)
    (update : ConnectionUpdate)
    (hclose : update.connection = some "close") (hcode : update.statusCode = some loggedOut) :
    self.handleConnectionUpdate loggedOut update =
      ({ self with isConnected := false },
        [Effect.log "Conexão encerrada permanentemente.",
          Effect.log "Dispositivo desconectado. Por favor, escaneie o QR Code novamente."]) := by
  simp [WhatsAppClient.handleConnectionUpdate, hclose, hcode]

theorem handle_open (loggedOut : Int) (self : WhatsAppClient) (update : ConnectionUpdate)
    (hopen : update.connection = some "open") :
    self.handleConnectionUpdate loggedOut update =
      ({ self with isConnected := true, reconnectAttempts := 0 },
        [Effect.log "Conexão estabelecida com sucesso!"]) := by
  simp [WhatsAppClient.handleConnectionUpdate, hopen]

theorem handle_other (loggedOut : Int) (self : WhatsAppClient) (update : ConnectionUpdate)
    (hopen : update.connection ≠ some "open") (hclose : update.connection ≠ some "close") :
    self.handleConnectionUpdate loggedOut update = (self, []) := by
  simp [WhatsAppClient.handleConnectionUpdate, hopen, hclose]

/-! ## Reconnect policy -/

/-- C1: with `maxReconnectAttempts = 5` and `reconnectAttempts = n < 5`, a `close` update whose
status code is not `DisconnectReason.loggedOut` (a missing `lastDisconnect` included, its status
code being `undefined`) sets `isConnected` to false, sets `reconnectAttempts` to `n + 1`, and
schedules exactly one timer, of delay `5000 * (n + 1)` ms. -/
theorem handleConnectionUpdate_close_schedules_reconnect (loggedOut : Int)
    (self : WhatsAppClient) (update : ConnectionUpdate)
    (hmax : self.maxReconnectAttempts = 5)
    (hlt : self.reconnectAttempts < self.maxReconnectAttempts)
    (hclose : update.connection = some "close")
    (hcode : update.statusCode ≠ some loggedOut) :
    (self.handleConnectionUpdate loggedOut update).1.isConnected = false ∧
    (self.handleConnectionUpdate loggedOut update).1.reconnectAttempts =
      self.reconnectAttempts + 1 ∧
    (self.handleConnectionUpdate loggedOut update).1.maxReconnectAttempts = 5 ∧
    scheduled (self.handleConnectionUpdate loggedOut update).2 =
      [5000 * (self.reconnectAttempts + 1)] := by
  rw [handle_close_lt loggedOut self update hclose hcode hlt]
  simp [scheduled, hmax]

/-- Witness of C1: a new client receives a `close` update without `lastDisconnect`. -/
theorem handleConnectionUpdate_close_schedules_reconnect_witness :
    (WhatsAppClient.new.handleConnectionUpdate 401 (closeUpdate none)).1.isConnected = false ∧
    (WhatsAppClient.new.handleConnectionUpdate 401 (closeUpdate none)).1.reconnectAttempts =
      WhatsAppClient.new.reconnectAttempts + 1 ∧
    (WhatsAppClient.new.handleConnectionUpdate 401 (closeUpdate none)).1.maxReconnectAttempts
      = 5 ∧
    scheduled (WhatsAppClient.new.handleConnectionUpdate 401 (closeUpdate none)).2 =
      [5000 * (WhatsAppClient.new.reconnectAttempts + 1)] :=
  handleConnectionUpdate_close_schedules_reconnect 401 WhatsAppClient.new (closeUpdate none)
    rfl (by decide) rfl (by decide)

/-- C2: whatever the fields of the client, a `close` update whose status code is
`DisconnectReason.loggedOut` schedules no timer, leaves `reconnectAttempts` unchanged and sets
`isConnected` to false. -/
theorem handleConnectionUpdate_loggedOut_no_reconnect (loggedOut : Int)
    (self : WhatsAppClient) (update : ConnectionUpdate)
    (hclose : update.connection = some "close")
    (hcode : update.statusCode = some loggedOut) :
    scheduled (self.handleConnectionUpdate loggedOut update).2 = [] ∧
    (self.handleConnectionUpdate loggedOut update).1.reconnectAttempts =
      self.reconnectAttempts ∧
    (self.handleConnectionUpdate loggedOut update).1.isConnected = false := by
  rw [handle_close_loggedOut loggedOut self update hclose hcode]
  simp [scheduled]

/-- Witness of C2: a new client (zero attempts) is logged out with status code 401. -/
theorem handleConnectionUpdate_loggedOut_no_reconnect_witness :
    scheduled (WhatsAppClient.new.handleConnectionUpdate 401
      (closeUpdate (disconnectWith 401))).2 = [] ∧
    (WhatsAppClient.new.handleConnectionUpdate 401
      (closeUpdate (disconnectWith 401))).1.reconnectAttempts =
        WhatsAppClient.new.reconnectAttempts ∧
    (WhatsAppClient.new.handleConnectionUpdate 401
      (closeUpdate (disconnectWith 401))).1.isConnected = false :=
  handleConnectionUpdate_loggedOut_no_reconnect 401 WhatsAppClient.new
    (closeUpdate (disconnectWith 401)) rfl rfl

/-- C6: an `open` update yields `isConnected = true` and `reconnectAttempts = 0`, schedules no
timer and leaves `maxReconnectAttempts` (and the socket) unchanged; handling the same update a
second time gives the same fields as handling it once. -/
theorem handleConnectionUpdate_open_resets (loggedOut : Int)
    (self : WhatsAppClient) (update : ConnectionUpdate)
    (hopen : update.connection = some "open") :
    (self.handleConnectionUpdate loggedOut update).1.isConnected = true ∧
    (self.handleConnectionUpdate loggedOut update).1.reconnectAttempts = 0 ∧
    scheduled (self.handleConnectionUpdate loggedOut update).2 = [] ∧
    (self.handleConnectionUpdate loggedOut update).1.maxReconnectAttempts =
      self.maxReconnectAttempts ∧
    (self.handleConnectionUpdate loggedOut update).1.sock = self.sock ∧
    ((self.handleConnectionUpdate loggedOut update).1.handleConnectionUpdate loggedOut update).1
      = (self.handleConnectionUpdate loggedOut update).1 := by
  rw [handle_open loggedOut self update hopen, handle_open loggedOut _ update hopen]
  simp [scheduled]

/-- Witness of C6: a client that used three attempts receives `open`. -/
theorem handleConnectionUpdate_open_resets_witness :
    (WhatsAppClient.handleConnectionUpdate 401 ⟨some 0, false, 3, 5⟩
      (openUpdate none)).1.isConnected = true ∧
    (WhatsAppClient.handleConnectionUpdate 401 ⟨some 0, false, 3, 5⟩
      (openUpdate none)).1.reconnectAttempts = 0 ∧
    scheduled (WhatsAppClient.handleConnectionUpdate 401 ⟨some 0, false, 3, 5⟩
      (openUpdate none)).2 = [] ∧
    (WhatsAppClient.handleConnectionUpdate 401 ⟨some 0, false, 3, 5⟩
      (openUpdate none)).1.maxReconnectAttempts = 5 ∧
    (WhatsAppClient.handleConnectionUpdate 401 ⟨some 0, false, 3, 5⟩
      (openUpdate none)).1.sock = some 0 ∧
    (WhatsAppClient.handleConnectionUpdate 401
      (WhatsAppClient.handleConnectionUpdate 401 ⟨some 0, false, 3, 5⟩ (openUpdate none)).1
      (openUpdate none)).1 =
      (WhatsAppClient.handleConnectionUpdate 401 ⟨some 0, false, 3, 5⟩ (openUpdate none)).1 :=
  handleConnectionUpdate_open_resets 401 ⟨some 0, false, 3, 5⟩ (openUpdate none) rfl

theorem handleAll_closes (loggedOut : Int) :
    ∀ (us : List ConnectionUpdate) (self : WhatsAppClient),
      (∀ u ∈ us, u.connection = some "close" ∧ u.statusCode ≠ some loggedOut) →
      self.reconnectAttempts + us.length ≤ self.maxReconnectAttempts →
      (handleAll loggedOut self us).1.reconnectAttempts = self.reconnectAttempts + us.length ∧
      (handleAll loggedOut self us).1.maxReconnectAttempts = self.maxReconnectAttempts ∧
      scheduled (handleAll loggedOut self us).2 =
        (List.range' (self.reconnectAttempts + 1) us.length).map (5000 * ·) := by
  intro us
  induction us with
  | nil => intro self _ _; simp [handleAll, scheduled]
  | cons u us ih =>
    intro self hall hle
    have hu := hall u (List.mem_cons_self u us)
    have hlt : self.reconnectAttempts < self.maxReconnectAttempts := by
      simp only [List.length_cons] at hle; omega
    have hstep := handle_close_lt loggedOut self u hu.1 hu.2 hlt
    have hrest := ih (self.handleConnectionUpdate loggedOut u).1
      (fun v hv => hall v (List.mem_cons_of_mem u hv))
      (by rw [hstep]; simp only [List.length_cons] at hle; simp only; omega)
    simp only [handleAll, scheduled_append, hrest.1, hrest.2.1, hrest.2.2]
    rw [hstep]
    simp only [List.length_cons, List.range'_succ, List.map_cons, scheduled, List.cons_append,
      List.nil_append]
    refine ⟨by omega, trivial, trivial⟩

/-- C10: from a newly constructed client, five consecutive `close` updates with a status code
other than `DisconnectReason.loggedOut` leave `reconnectAttempts = 5` and schedule exactly five
timers, of delays 5000, 10000, 15000, 20000 and 25000 ms; a sixth such update schedules nothing,
leaves `reconnectAttempts` at 5 and prints only the line "Conexão encerrada permanentemente.". -/
theorem five_closes_exhaust_reconnects (loggedOut : Int) (us : List ConnectionUpdate)
    (sixth : ConnectionUpdate) (hlen : us.length = 5)
    (hall : ∀ u ∈ us, u.connection = some "close" ∧ u.statusCode ≠ some loggedOut)
    (hclose : sixth.connection = some "close")
    (hcode : sixth.statusCode ≠ some loggedOut) :
    (handleAll loggedOut WhatsAppClient.new us).1.reconnectAttempts = 5 ∧
    scheduled (handleAll loggedOut WhatsAppClient.new us).2 =
      [5000, 10000, 15000, 20000, 25000] ∧
    scheduled ((handleAll loggedOut WhatsAppClient.new us).1.handleConnectionUpdate
      loggedOut sixth).2 = [] ∧
    ((handleAll loggedOut WhatsAppClient.new us).1.handleConnectionUpdate
      loggedOut sixth).1.reconnectAttempts = 5 ∧
    ((handleAll loggedOut WhatsAppClient.new us).1.handleConnectionUpdate
      loggedOut sixth).2 = [Effect.log "Conexão encerrada permanentemente."] := by
  have h := handleAll_closes loggedOut us WhatsAppClient.new hall
    (by rw [hlen]; decide)
  have hatt : (handleAll loggedOut WhatsAppClient.new us).1.reconnectAttempts = 5 := by
    rw [h.1, hlen]; rfl
  have hmax : (handleAll loggedOut WhatsAppClient.new us).1.maxReconnectAttempts = 5 := by
    rw [h.2.1]; rfl
  have hsix := handle_close_ge loggedOut (handleAll loggedOut WhatsAppClient.new us).1 sixth
    hclose hcode (by rw [hatt, hmax])
  refine ⟨hatt, ?_, ?_, ?_, ?_⟩
  · rw [h.2.2, hlen]; rfl
  · rw [hsix]; rfl
  · rw [hsix]; exact hatt
  · rw [hsix]

/-- Witness of C10: the connection is lost six times in a row without `lastDisconnect`. -/
theorem five_closes_exhaust_reconnects_witness :
    (handleAll 401 WhatsAppClient.new (List.replicate 5 (closeUpdate none))).1.reconnectAttempts
      = 5 ∧
    scheduled (handleAll 401 WhatsAppClient.new (List.replicate 5 (closeUpdate none))).2 =
      [5000, 10000, 15000, 20000, 25000] ∧
    scheduled ((handleAll 401 WhatsAppClient.new
      (List.replicate 5 (closeUpdate none))).1.handleConnectionUpdate
      401 (closeUpdate none)).2 = [] ∧
    ((handleAll 401 WhatsAppClient.new
      (List.replicate 5 (closeUpdate none))).1.handleConnectionUpdate
      401 (closeUpdate none)).1.reconnectAttempts = 5 ∧
    ((handleAll 401 WhatsAppClient.new
      (List.replicate 5 (closeUpdate none))).1.handleConnectionUpdate
      401 (closeUpdate none)).2 = [Effect.log "Conexão encerrada permanentemente."] :=
  five_closes_exhaust_reconnects 401 (List.replicate 5 (closeUpdate none)) (closeUpdate none)
    rfl (by decide) rfl (by decide)

/-! ## Outbound and inbound messages -/

/-- C4: when `isConnected` is false, `sendMessage` throws the not-connected error for every
recipient and text, makes no call to the transport (it performs no effect at all) and leaves
the fields of the client unchanged. -/
theorem sendMessage_not_connected (self : WhatsAppClient) (recipient content : String)
    (reply : Except JsError String) (hdown : self.isConnected = false) :
    (self.sendMessage recipient content reply).result =
      Except.error (JsError.error "Cliente não está conectado ao WhatsApp") ∧
    transportCalls (self.sendMessage recipient content reply).effects = [] ∧
    (self.sendMessage recipient content reply).effects = [] ∧
    (self.sendMessage recipient content reply).client = self := by
  simp [WhatsAppClient.sendMessage, hdown, transportCalls]

/-- Witness of C4: a client that holds a socket but is not connected. -/
theorem sendMessage_not_connected_witness :
    (WhatsAppClient.sendMessage ⟨some 0, false, 0, 5⟩ "5511999999999" "Olá!"
      (Except.ok "receipt")).result =
      Except.error (JsError.error "Cliente não está conectado ao WhatsApp") ∧
    transportCalls (WhatsAppClient.sendMessage ⟨some 0, false, 0, 5⟩ "5511999999999" "Olá!"
      (Except.ok "receipt")).effects = [] ∧
    (WhatsAppClient.sendMessage ⟨some 0, false, 0, 5⟩ "5511999999999" "Olá!"
      (Except.ok "receipt")).effects = [] ∧
    (WhatsAppClient.sendMessage ⟨some 0, false, 0, 5⟩ "5511999999999" "Olá!"
      (Except.ok "receipt")).client = ⟨some 0, false, 0, 5⟩ :=
  sendMessage_not_connected ⟨some 0, false, 0, 5⟩ "5511999999999" "Olá!" (Except.ok "receipt")
    rfl

/-- C9: when the first message of the batch has `key.fromMe = true`, `handleNewMessage` prints
nothing (no effect at all), returns normally and leaves the fields of the client unchanged,
whatever the content of that message and whatever the other messages of the batch. -/
theorem handleNewMessage_ignores_own (self : WhatsAppClient) (first : WAMessage)
    (others : List WAMessage) (key : MessageKey)
    (hkey : first.key = some key) (hown : key.fromMe = some true) :
    (self.handleNewMessage { messages := first :: others }).effects = [] ∧
    (self.handleNewMessage { messages := first :: others }).client = self ∧
    (self.handleNewMessage { messages := first :: others }).result = Except.ok () := by
  simp [WhatsAppClient.handleNewMessage, hkey, hown]

/-- Witness of C9: an echo of the client's own text, followed by a message of someone else. -/
theorem handleNewMessage_ignores_own_witness :
    (WhatsAppClient.new.handleNewMessage { messages :=
      ⟨some ⟨some true, some "a@s.whatsapp.net"⟩, some ⟨some "oi", none⟩⟩ ::
        [⟨some ⟨some false, some "b@s.whatsapp.net"⟩, none⟩] }).effects = [] ∧
    (WhatsAppClient.new.handleNewMessage { messages :=
      ⟨some ⟨some true, some "a@s.whatsapp.net"⟩, some ⟨some "oi", none⟩⟩ ::
        [⟨some ⟨some false, some "b@s.whatsapp.net"⟩, none⟩] }).client = WhatsAppClient.new ∧
    (WhatsAppClient.new.handleNewMessage { messages :=
      ⟨some ⟨some true, some "a@s.whatsapp.net"⟩, some ⟨some "oi", none⟩⟩ ::
        [⟨some ⟨some false, some "b@s.whatsapp.net"⟩, none⟩] }).result = Except.ok () :=
  handleNewMessage_ignores_own WhatsAppClient.new
    ⟨some ⟨some true, some "a@s.whatsapp.net"⟩, some ⟨some "oi", none⟩⟩
    [⟨some ⟨some false, some "b@s.whatsapp.net"⟩, none⟩] ⟨some true, some "a@s.whatsapp.net"⟩
    rfl rfl

/-! ## Recipient formatting -/

theorem isDigit_iff_mem (c : Char) : c.isDigit = true ↔ c ∈ "0123456789".data := by
  constructor
  · intro h
    simp only [Char.isDigit, Bool.and_eq_true, decide_eq_true_eq] at h
    obtain ⟨h1, h2⟩ := h
    have h1n : 48 ≤ c.toNat := h1
    have h2n : c.toNat ≤ 57 := h2
    rw [← Char.ofNat_toNat c]
    generalize c.toNat = n at h1n h2n
    interval_cases n <;> decide
  · intro h
    have hmem : c ∈ ['0', '1', '2', '3', '4', '5', '6', '7', '8', '9'] := h
    simp only [List.mem_cons, List.mem_singleton, List.not_mem_nil, or_false] at hmem
    rcases hmem with rfl | rfl | rfl | rfl | rfl | rfl | rfl | rfl | rfl | rfl <;> decide

theorem stripNonDigits_all_digits (x : String) :
    ∀ c ∈ (stripNonDigits x).data, c.isDigit = true := by
  intro c hc
  simp only [stripNonDigits, List.mem_filter] at hc
  exact hc.2

theorem stripNonDigits_not_endsWith (x : String) :
    endsWith (stripNonDigits x) "@s.whatsapp.net" = false := by
  simp only [endsWith, decide_eq_false_iff_not]
  intro hsuf
  have hmem : '@' ∈ (stripNonDigits x).data := hsuf.subset (by decide)
  exact absurd (stripNonDigits_all_digits x '@' hmem) (by decide)

theorem formatPhoneNumber_eq (x : String) :
    WhatsAppClient.formatPhoneNumber x = stripNonDigits x ++ "@s.whatsapp.net" := by
  simp [WhatsAppClient.formatPhoneNumber, stripNonDigits_not_endsWith]

theorem stripNonDigits_append (a b : String) :
    stripNonDigits (a ++ b) = stripNonDigits a ++ stripNonDigits b := by
  apply String.ext
  simp [stripNonDigits]

theorem stripNonDigits_idem (x : String) :
    stripNonDigits (stripNonDigits x) = stripNonDigits x := by
  apply String.ext
  simp [stripNonDigits]

theorem stripNonDigits_suffix : stripNonDigits "@s.whatsapp.net" = "" := by
  decide

theorem suffix_occurs_once (digits pre post : List Char)
    (hdigits : ∀ c ∈ digits, c.isDigit = true)
    (h : digits ++ "@s.whatsapp.net".data = pre ++ "@s.whatsapp.net".data ++ post) :
    pre = digits ∧ post = [] := by
  rw [List.append_assoc, List.append_eq_append_iff] at h
  rcases h with ⟨a, hpre, hsuf⟩ | ⟨c, hd, hsuf⟩
  · have hlen := congrArg List.length hsuf
    simp only [List.length_append] at hlen
    have ha : a = [] := List.length_eq_zero.mp (by omega)
    have hp : post = [] := List.length_eq_zero.mp (by omega)
    subst ha
    simp [hpre, hp]
  · cases c with
    | nil =>
      simp only [List.nil_append, List.append_right_eq_self] at hsuf
      simp [hd, hsuf]
    | cons c cs =>
      have hc : c = '@' := by
        have := congrArg List.head? hsuf
        simpa using this.symm
      have hmem : c ∈ digits := by rw [hd]; simp
      rw [hc] at hmem
      exact absurd (hdigits '@' hmem) (by decide)

/-- C7: `formatPhoneNumber(formatPhoneNumber(x)) = formatPhoneNumber(x)` for every string. -/
theorem formatPhoneNumber_idempotent (x : String) :
    WhatsAppClient.formatPhoneNumber (WhatsAppClient.formatPhoneNumber x) =
      WhatsAppClient.formatPhoneNumber x := by
  rw [formatPhoneNumber_eq (WhatsAppClient.formatPhoneNumber x), formatPhoneNumber_eq x,
    stripNonDigits_append, stripNonDigits_idem, stripNonDigits_suffix]
  apply String.ext
  simp

/-- C8: for every string, `formatPhoneNumber` (a total function) returns the characters `0` to
`9` of the input, in their order, followed by the suffix "@s.whatsapp.net"; the suffix occurs
in the result at that place only; and `formatPhoneNumber("(11) 95677-3737")` is
"11956773737@s.whatsapp.net". -/
theorem formatPhoneNumber_digits_then_suffix (x : String) :
    WhatsAppClient.formatPhoneNumber x =
      String.mk (x.data.filter Char.isDigit) ++ "@s.whatsapp.net" ∧
    (∀ c : Char, c.isDigit = true ↔ c ∈ "0123456789".data) ∧
    (∀ pre post : List Char,
      (WhatsAppClient.formatPhoneNumber x).data = pre ++ "@s.whatsapp.net".data ++ post →
        pre = x.data.filter Char.isDigit ∧ post = []) ∧
    WhatsAppClient.formatPhoneNumber "(11) 95677-3737" = "11956773737@s.whatsapp.net" := by
  refine ⟨formatPhoneNumber_eq x, isDigit_iff_mem, ?_, by decide⟩
  · intro pre post h
    rw [formatPhoneNumber_eq, String.data_append] at h
    exact suffix_occurs_once _ pre post (stripNonDigits_all_digits x) h

/-! ## Reachable states -/

theorem bounded_handleConnectionUpdate (loggedOut : Int) (self : WhatsAppClient)
    (update : ConnectionUpdate) (h : Bounded self) :
    Bounded (self.handleConnectionUpdate loggedOut update).1 := by
  obtain ⟨hle, hmax⟩ := h
  by_cases hopen : update.connection = some "open"
  · rw [handle_open loggedOut self update hopen]
    exact ⟨Nat.zero_le _, hmax⟩
  · by_cases hclose : update.connection = some "close"
    · by_cases hcode : update.statusCode = some loggedOut
      · rw [handle_close_loggedOut loggedOut self update hclose hcode]
        exact ⟨hle, hmax⟩
      · by_cases hlt : self.reconnectAttempts < self.maxReconnectAttempts
        · rw [handle_close_lt loggedOut self update hclose hcode hlt]
          exact ⟨hlt, hmax⟩
        · rw [handle_close_ge loggedOut self update hclose hcode (Nat.not_lt.mp hlt)]
          exact ⟨hle, hmax⟩
    · rw [handle_other loggedOut self update hopen hclose]
      exact ⟨hle, hmax⟩

theorem handleNewMessage_client (self : WhatsAppClient) (batch : MessagesUpsert) :
    (self.handleNewMessage batch).client = self := by
  unfold WhatsAppClient.handleNewMessage
  simp only
  split
  · rfl
  · split
    · rfl
    · split <;> rfl

theorem sendMessage_client (self : WhatsAppClient) (recipient content : String)
    (reply : Except JsError String) :
    (self.sendMessage recipient content reply).client = self := by
  unfold WhatsAppClient.sendMessage
  split
  · rfl
  · simp only
    split
    · rfl
    · split <;> rfl

theorem bounded_runInit (w : World) (outcome : Except JsError Unit) (h : Bounded w.client) :
    Bounded (w.runInit outcome).client := by
  cases outcome <;> exact h

theorem bounded_step (loggedOut : Int) (w : World) (e : Event) (h : Bounded w.client) :
    Bounded (w.step loggedOut e).client := by
  cases e with
  | callInit outcome => exact bounded_runInit w outcome h
  | timerFires i outcome =>
    simp only [World.step]
    split
    · exact bounded_runInit _ outcome h
    · exact h
  | connectionUpdate sock update =>
    exact bounded_handleConnectionUpdate loggedOut w.client update h
  | messagesUpsert sock batch =>
    simp only [World.step, handleNewMessage_client]
    exact h
  | callSendMessage recipient content reply =>
    simp only [World.step, sendMessage_client]
    exact h

theorem bounded_run (loggedOut : Int) (events : List Event) :
    ∀ w : World, Bounded w.client → Bounded (w.run loggedOut events).client := by
  induction events with
  | nil => intro w h; exact h
  | cons e es ih =>
    intro w h
    exact ih (w.step loggedOut e) (bounded_step loggedOut w e h)

/-- C3: in every state reached from a newly constructed client by a finite run of events
(calls of `initialize()` that succeed or fail, timers firing in any order, connection updates
of any kind and reason from any socket, inbound batches, calls of `sendMessage`),
`0 <= reconnectAttempts <= maxReconnectAttempts = 5`. -/
theorem reconnectAttempts_bounded (loggedOut : Int) (events : List Event) :
    0 ≤ (World.initial.run loggedOut events).client.reconnectAttempts ∧
    (World.initial.run loggedOut events).client.reconnectAttempts ≤
      (World.initial.run loggedOut events).client.maxReconnectAttempts ∧
    (World.initial.run loggedOut events).client.maxReconnectAttempts = 5 :=
  ⟨Nat.zero_le _, bounded_run loggedOut events World.initial ⟨Nat.zero_le _, rfl⟩⟩

/-! ## Live sessions -/

theorem scheduled_handle_length (loggedOut : Int) (self : WhatsAppClient)
    (update : ConnectionUpdate) :
    (scheduled (self.handleConnectionUpdate loggedOut update).2).length ≤ 1 := by
  by_cases hopen : update.connection = some "open"
  · rw [handle_open loggedOut self update hopen]; simp [scheduled]
  · by_cases hclose : update.connection = some "close"
    · by_cases hcode : update.statusCode = some loggedOut
      · rw [handle_close_loggedOut loggedOut self update hclose hcode]; simp [scheduled]
      · by_cases hlt : self.reconnectAttempts < self.maxReconnectAttempts
        · rw [handle_close_lt loggedOut self update hclose hcode hlt]; simp [scheduled]
        · rw [handle_close_ge loggedOut self update hclose hcode (Nat.not_lt.mp hlt)]
          simp [scheduled]
    · rw [handle_other loggedOut self update hopen hclose]; simp [scheduled]

theorem scheduled_handle_not_close (loggedOut : Int) (self : WhatsAppClient)
    (update : ConnectionUpdate) (hclose : update.connection ≠ some "close") :
    scheduled (self.handleConnectionUpdate loggedOut update).2 = [] := by
  by_cases hopen : update.connection = some "open"
  · rw [handle_open loggedOut self update hopen]; rfl
  · rw [handle_other loggedOut self update hopen hclose]; rfl

theorem runInit_live_length (w : World) (outcome : Except JsError Unit) :
    (w.runInit outcome).live.length ≤ w.live.length + 1 ∧
    (w.runInit outcome).timers = w.timers := by
  cases outcome <;> simp [World.runInit, WhatsAppClient.init]

theorem orderly_step (loggedOut : Int) (w : World) (e : Event)
    (hord : e.orderly w = true) (h : w.live.length + w.timers.length ≤ 1) :
    (w.step loggedOut e).live.length + (w.step loggedOut e).timers.length ≤ 1 := by
  cases e with
  | callInit outcome => simp [Event.orderly] at hord
  | timerFires i outcome =>
    have hi : i < w.timers.length := by simpa [Event.orderly] using hord
    simp only [World.step, hi, if_true]
    have hr := runInit_live_length { w with timers := w.timers.eraseIdx i } outcome
    rw [hr.2]
    have hlen := List.length_eraseIdx_of_lt hi
    simp only at hr ⊢
    omega
  | connectionUpdate sock update =>
    have hs : sock ∈ w.live := by simpa [Event.orderly] using hord
    simp only [World.step, List.length_append]
    by_cases hclose : update.connection = some "close"
    · have hlen := scheduled_handle_length loggedOut w.client update
      have hpos : 0 < w.live.length := List.length_pos_of_mem hs
      simp only [hclose, if_true, List.length_erase_of_mem hs]
      omega
    · rw [scheduled_handle_not_close loggedOut w.client update hclose]
      simp only [hclose, if_false, List.length_nil]
      omega
  | messagesUpsert sock batch => exact h
  | callSendMessage recipient content reply => exact h

theorem orderly_run (loggedOut : Int) (events : List Event) :
    ∀ w : World, w.live.length + w.timers.length ≤ 1 →
      World.orderlyRun loggedOut w events = true →
      (w.run loggedOut events).live.length + (w.run loggedOut events).timers.length ≤ 1 := by
  induction events with
  | nil => intro w h _; exact h
  | cons e es ih =>
    intro w h hord
    simp only [World.orderlyRun, Bool.and_eq_true] at hord
    exact ih (w.step loggedOut e) (orderly_step loggedOut w e hord.1 h) hord.2

/-- C5, as the code has it: after the first `initialize()`, as long as the application does not
call `initialize()` again, only pending timers fire and only live sockets emit events (a socket
that reported `close` emits nothing more), the live sessions and the pending timers together
number at most one, so at most one session is live.  The client itself has no guard: a timer
that fires with `initialize()` succeeding always adds a session to the live ones, whatever the
state, and closes none. -/
theorem orderly_at_most_one_session (loggedOut : Int) (outcome : Except JsError Unit)
    (events : List Event)
    (hord : World.orderlyRun loggedOut
      (World.initial.step loggedOut (Event.callInit outcome)) events = true) :
    ((World.initial.step loggedOut (Event.callInit outcome)).run loggedOut events).live.length +
      ((World.initial.step loggedOut (Event.callInit outcome)).run loggedOut
        events).timers.length ≤ 1 ∧
    ∀ (w : World) (i : Nat), i < w.timers.length →
      (w.step loggedOut (Event.timerFires i (Except.ok ()))).live = w.live ++ [w.created] := by
  refine ⟨orderly_run loggedOut events _ ?_ hord, ?_⟩
  · have hr := runInit_live_length World.initial outcome
    have h0 : World.initial.live.length = 0 := rfl
    have ht : (World.initial.runInit outcome).timers.length = 0 := by rw [hr.2]; rfl
    show (World.initial.runInit outcome).live.length +
      (World.initial.runInit outcome).timers.length ≤ 1
    omega
  · intro w i hi
    simp [World.step, hi, World.runInit, WhatsAppClient.init]

/-- Witness of C5: the session drops once, the timer reopens one, and that one connects. -/
theorem orderly_at_most_one_session_witness :
    ((World.initial.step 401 (Event.callInit (Except.ok ()))).run 401
      [Event.connectionUpdate 0 (closeUpdate none), Event.timerFires 0 (Except.ok ()),
        Event.connectionUpdate 1 (openUpdate none)]).live.length +
      ((World.initial.step 401 (Event.callInit (Except.ok ()))).run 401
        [Event.connectionUpdate 0 (closeUpdate none), Event.timerFires 0 (Except.ok ()),
          Event.connectionUpdate 1 (openUpdate none)]).timers.length ≤ 1 ∧
    ∀ (w : World) (i : Nat), i < w.timers.length →
      (w.step 401 (Event.timerFires i (Except.ok ()))).live = w.live ++ [w.created] :=
  orderly_at_most_one_session 401 (Except.ok ())
    [Event.connectionUpdate 0 (closeUpdate none), Event.timerFires 0 (Except.ok ()),
      Event.connectionUpdate 1 (openUpdate none)] (by decide)

/-- C5 fails as stated.  After `initialize()`, two `close` updates are handled before either
timer fires; both timers then fire and each `initialize()` creates a session: sessions 1 and 2
are live together.  In the second run session 1 reports `open` before the second timer fires:
the client is connected, and the timer still opens session 2. -/
theorem two_pending_timers_two_sessions :
    ((World.initial.step 401 (Event.callInit (Except.ok ()))).run 401
      [Event.connectionUpdate 0 (closeUpdate none), Event.connectionUpdate 0 (closeUpdate none),
        Event.timerFires 0 (Except.ok ()), Event.timerFires 0 (Except.ok ())]).live = [1, 2] ∧
    ¬ ((World.initial.step 401 (Event.callInit (Except.ok ()))).run 401
      [Event.connectionUpdate 0 (closeUpdate none), Event.connectionUpdate 0 (closeUpdate none),
        Event.timerFires 0 (Except.ok ()),
        Event.timerFires 0 (Except.ok ())]).live.length ≤ 1 ∧
    ((World.initial.step 401 (Event.callInit (Except.ok ()))).run 401
      [Event.connectionUpdate 0 (closeUpdate none), Event.connectionUpdate 0 (closeUpdate none),
        Event.timerFires 0 (Except.ok ()),
        Event.connectionUpdate 1 (openUpdate none)]).client.isConnected = true ∧
    ((World.initial.step 401 (Event.callInit (Except.ok ()))).run 401
      [Event.connectionUpdate 0 (closeUpdate none), Event.connectionUpdate 0 (closeUpdate none),
        Event.timerFires 0 (Except.ok ()), Event.connectionUpdate 1 (openUpdate none),
        Event.timerFires 0 (Except.ok ())]).live = [1, 2] := by
  refine ⟨?_, ?_, ?_, ?_⟩ <;> decide

end WhatsApp
